import Mathlib

/-!
Shallow embedding of the review-decision pipeline implemented by
`scripts/copilot-review.py`, `scripts/batch-review.py` and
`scripts/smart-filter.py`.

The Python code matches fixed regular expressions with `re.search`,
`re.match` and `re.findall`.  We embed exactly the regex constructs those
fixed patterns use (literals, `.`, classes, `\s`, `\w`, `[0-9]`, `[^)]`,
`*`, `*?`, `+`, alternation, `^`, `$`, `\b`) with Python's backtracking
priority (leftmost match, left alternative first, greedy/lazy repetition),
as a fuel-indexed executable matcher.  None of the patterns below contains
a repetition whose body can match the empty string, and the fuel passed by
the wrappers dominates the backtracking depth for every input, so the
fuel never runs out on the inputs the theorems evaluate.
-/

namespace Review

/-- Character classes occurring in the scripts' patterns.  When the `ci`
flag is set (Python `re.IGNORECASE`), comparison folds case both for
`lit` literals and inside `oneOf`/`notOneOf` character classes, as
Python does (`[rwa]` matches `R` under `re.IGNORECASE`). -/
inductive CC where
  | lit (c : Char)
  | any
  | digit
  | space
  | word
  | oneOf (cs : List Char)
  | notOneOf (cs : List Char)
deriving DecidableEq

/-- Python `\s` (ASCII part, which is all these scripts' inputs use). -/
def isPySpace (c : Char) : Bool :=
  c = ' ' || c = '\t' || c = '\n' || c = '\r' || c = '\x0b' || c = '\x0c'

/-- Python `\w` (ASCII part). -/
def isPyWord (c : Char) : Bool :=
  c.isAlpha || c.isDigit || c = '_'

def ccMatches (ci : Bool) : CC → Char → Bool
  | .lit l, c => if ci then l.toLower = c.toLower else l = c
  | .any, c => c ≠ '\n'
  | .digit, c => c.isDigit
  | .space, c => isPySpace c
  | .word, c => isPyWord c
  | .oneOf cs, c =>
      if ci then cs.any (fun d => d.toLower = c.toLower) else cs.contains c
  | .notOneOf cs, c =>
      if ci then ¬ cs.any (fun d => d.toLower = c.toLower) else ¬ cs.contains c

/-- Regex abstract syntax.  `star` is greedy `*`, `starL` is lazy `*?`,
`bol`/`eol` are `^`/`$` without `re.MULTILINE` (none of the patterns that
contain an anchor is compiled with `MULTILINE`), `wb` is `\b`. -/
inductive RE where
  | fail
  | eps
  | cc (k : CC)
  | seq (r1 r2 : RE)
  | alt (r1 r2 : RE)
  | star (r : RE)
  | starL (r : RE)
  | bol
  | eol
  | wb
deriving DecidableEq

/-- Greedy `+`, as in `\s+`, `\w+`, `[0-9]+`. -/
def plusRE (r : RE) : RE := .seq r (.star r)

/-- Literal word: each character a `lit` class. -/
def strRE (w : String) : RE := w.data.foldr (fun c r => .seq (.cc (.lit c)) r) .eps

/-- Alternation of a list, left branch first (Python tries alternatives
left to right). -/
def altList : List RE → RE
  | [] => .fail
  | [r] => r
  | r :: rs => .alt r (altList rs)

def sizeRE : RE → Nat
  | .fail => 1
  | .eps => 1
  | .cc _ => 1
  | .seq r1 r2 => sizeRE r1 + sizeRE r2 + 1
  | .alt r1 r2 => sizeRE r1 + sizeRE r2 + 1
  | .star r => sizeRE r + 1
  | .starL r => sizeRE r + 1
  | .bol => 1
  | .eol => 1
  | .wb => 1

/-- One backtracking step.  Returns, in Python's backtracking priority
order, every way the regex can match a prefix of `s`, as the pair of the
last consumed character (needed by `\b`) and the remaining suffix.
`prev = none` means the match position is the start of the subject.
Repetition recursion is guarded by requiring the body to have consumed at
least one character, which is also Python's behaviour for these patterns
(no body below is nullable). -/
def mstep (ci : Bool) : Nat → RE → Option Char → List Char → List (Option Char × List Char)
  | 0, _, _, _ => []
  | _ + 1, .fail, _, _ => []
  | _ + 1, .eps, prev, s => [(prev, s)]
  | _ + 1, .cc k, _, s =>
      match s with
      | [] => []
      | c :: rest => if ccMatches ci k c then [(some c, rest)] else []
  | fuel + 1, .seq r1 r2, prev, s =>
      (mstep ci fuel r1 prev s).flatMap (fun pr => mstep ci fuel r2 pr.1 pr.2)
  | fuel + 1, .alt r1 r2, prev, s =>
      mstep ci fuel r1 prev s ++ mstep ci fuel r2 prev s
  | fuel + 1, .star r, prev, s =>
      ((mstep ci fuel r prev s).filter (fun pr => pr.2.length < s.length)).flatMap
        (fun pr => mstep ci fuel (.star r) pr.1 pr.2) ++ [(prev, s)]
  | fuel + 1, .starL r, prev, s =>
      (prev, s) ::
      ((mstep ci fuel r prev s).filter (fun pr => pr.2.length < s.length)).flatMap
        (fun pr => mstep ci fuel (.starL r) pr.1 pr.2)
  | _ + 1, .bol, prev, s => if prev = none then [(prev, s)] else []
  | _ + 1, .eol, prev, s => if s = [] || s = ['\n'] then [(prev, s)] else []
  | _ + 1, .wb, prev, s =>
      let before := match prev with | none => false | some c => isPyWord c
      let after := match s with | [] => false | c :: _ => isPyWord c
      if before ≠ after then [(prev, s)] else []

/-- Fuel comfortably dominating the backtracking depth: one unit per
syntax node plus one per consumed character per repetition level. -/
def reFuel (r : RE) (s : List Char) : Nat := (sizeRE r + 2) * (s.length + 2)

def matchResults (ci : Bool) (r : RE) (prev : Option Char) (s : List Char) :
    List (Option Char × List Char) :=
  mstep ci (reFuel r s) r prev s

/-- Character preceding position `i` of `s` (for `\b` and `^` context). -/
def prevAt (s : List Char) (i : Nat) : Option Char :=
  if i = 0 then none else s.get? (i - 1)

/-- Python `re.search(pattern, s)` as a Boolean: some start position
admits a match. -/
def research (ci : Bool) (r : RE) (s : List Char) : Bool :=
  (List.range (s.length + 1)).any
    (fun i => matchResults ci r (prevAt s i) (s.drop i) ≠ [])

/-- Python `re.match(pattern, s)` as a Boolean: a match anchored at the
start of `s`. -/
def rmatch (ci : Bool) (r : RE) (s : List Char) : Bool :=
  matchResults ci r none s ≠ []

/-- Length of the highest-priority match starting at position `i`,
`none` when no match starts there. -/
def matchLenAt (ci : Bool) (r : RE) (s : List Char) (i : Nat) : Option Nat :=
  match (matchResults ci r (prevAt s i) (s.drop i)).head? with
  | none => none
  | some pr => some ((s.drop i).length - pr.2.length)

/-- Scanner behind `re.findall` counting: at each position take the
leftmost match, count it, and resume after it. -/
def countFrom (ci : Bool) (r : RE) (s : List Char) : Nat → Nat → Nat
  | 0, _ => 0
  | fuel + 1, i =>
      if i > s.length then 0
      else
        match matchLenAt ci r s i with
        | some L => 1 + countFrom ci r s fuel (i + max L 1)
        | none => countFrom ci r s fuel (i + 1)

/-- Number of matches `re.findall(pattern, s)` returns. -/
def countMatches (ci : Bool) (r : RE) (s : List Char) : Nat :=
  countFrom ci r s (s.length + 2) 0

/-- Python substring containment: `needle in hay`. -/
def strContains (needle hay : String) : Bool :=
  (List.range (hay.data.length + 1)).any
    (fun i => needle.data.isPrefixOf (hay.data.drop i))

/-- Python `s.split(sep)` for a one-character separator. -/
def splitOnChar (c : Char) : List Char → List (List Char)
  | [] => [[]]
  | d :: rest =>
      let r := splitOnChar c rest
      if d = c then [] :: r
      else
        match r with
        | [] => [[d]]
        | h :: t => (d :: h) :: t

/-- Python `diff.split('\n')`. -/
def splitLines (s : List Char) : List (List Char) := splitOnChar '\n' s

/-- Python `line.startswith(c)` for a one-character prefix. -/
def lineStarts (c : Char) (l : List Char) : Bool := l.head? = some c

/-- Python `s.strip()` (ASCII whitespace, which is all the diffs hold). -/
def stripChars (l : List Char) : List Char :=
  ((l.dropWhile isPySpace).reverse.dropWhile isPySpace).reverse

/-- Python `s.lower()` (ASCII). -/
def strToLower (s : String) : String := String.mk (s.data.map Char.toLower)

/-- The apostrophe character, used by the `['"]` classes below. -/
def squote : Char := Char.ofNat 39

/-! ### The fixed patterns of the scripts

Transcribed one-for-one from the regex literals in the Python sources.
-/

/-- `security|auth|encrypt|decrypt|password|token` (copilot-review.py
default `critical_patterns[0]`). -/
def p_crit1 : RE := altList [strRE "security", strRE "auth", strRE "encrypt",
  strRE "decrypt", strRE "password", strRE "token"]

/-- `sql|database|query|injection` (default `critical_patterns[1]`). -/
def p_crit2 : RE := altList [strRE "sql", strRE "database", strRE "query",
  strRE "injection"]

/-- `async|await|task|thread` (default `critical_patterns[2]`). -/
def p_crit3 : RE := altList [strRE "async", strRE "await", strRE "task",
  strRE "thread"]

/-- `memory|dispose|using|gc` (default `critical_patterns[3]`). -/
def p_crit4 : RE := altList [strRE "memory", strRE "dispose", strRE "using",
  strRE "gc"]

/-- The default `critical_patterns` list of `CopilotReviewer._load_config`. -/
def critical_patterns : List RE := [p_crit1, p_crit2, p_crit3, p_crit4]

/-- `^using\s+` (default `skip_patterns[0]`). -/
def p_skip1 : RE := .seq .bol (.seq (strRE "using") (plusRE (.cc .space)))

/-- `^\s*//.*$` (default `skip_patterns[1]`). -/
def p_skip2 : RE := .seq .bol (.seq (.star (.cc .space))
  (.seq (strRE "//") (.seq (.star (.cc .any)) .eol)))

/-- `^\s*\[.*\]\s*$` (default `skip_patterns[2]`). -/
def p_skip3 : RE := .seq .bol (.seq (.star (.cc .space))
  (.seq (.cc (.lit '[')) (.seq (.star (.cc .any))
    (.seq (.cc (.lit ']')) (.seq (.star (.cc .space)) .eol)))))

/-- The default `skip_patterns` list of `CopilotReviewer._load_config`. -/
def skip_patterns : List RE := [p_skip1, p_skip2, p_skip3]

/-- `hashlib\.md5|hashlib\.sha1` (`_static_review` security rule 1). -/
def p_md5 : RE := .alt (strRE "hashlib.md5") (strRE "hashlib.sha1")

/-- `SELECT.*\+.*|INSERT.*\+.*` (`_static_review` security rule 2). -/
def p_sql : RE := .alt
  (.seq (strRE "SELECT") (.seq (.star (.cc .any))
    (.seq (.cc (.lit '+')) (.star (.cc .any)))))
  (.seq (strRE "INSERT") (.seq (.star (.cc .any))
    (.seq (.cc (.lit '+')) (.star (.cc .any)))))

/-- `eval\s*\(|exec\s*\(` (`_static_review` security rule 3). -/
def p_eval : RE := .alt
  (.seq (strRE "eval") (.seq (.star (.cc .space)) (.cc (.lit '('))))
  (.seq (strRE "exec") (.seq (.star (.cc .space)) (.cc (.lit '('))))

/-- `open\s*\([^)]*['"][rwa]['"]\s*\)` (`_static_review` security rule 4). -/
def p_open : RE := .seq (strRE "open") (.seq (.star (.cc .space))
  (.seq (.cc (.lit '(')) (.seq (.star (.cc (.notOneOf [')'])))
    (.seq (.cc (.oneOf [squote, '"'])) (.seq (.cc (.oneOf ['r', 'w', 'a']))
      (.seq (.cc (.oneOf [squote, '"']))
        (.seq (.star (.cc .space)) (.cc (.lit ')')))))))))

/-- `for.*in.*range.*\n.*\+\s*=` (`_static_review` performance rule 1). -/
def p_loop : RE := .seq (strRE "for") (.seq (.star (.cc .any))
  (.seq (strRE "in") (.seq (.star (.cc .any))
    (.seq (strRE "range") (.seq (.star (.cc .any))
      (.seq (.cc (.lit '\n')) (.seq (.star (.cc .any))
        (.seq (.cc (.lit '+')) (.seq (.star (.cc .space)) (.cc (.lit '=')))))))))))

/-- `time\.sleep\(\s*[0-9]+\s*\)` (`_static_review` performance rule 2). -/
def p_sleep : RE := .seq (strRE "time.sleep") (.seq (.cc (.lit '('))
  (.seq (.star (.cc .space)) (.seq (plusRE (.cc .digit))
    (.seq (.star (.cc .space)) (.cc (.lit ')'))))))

/-- `\b(public|private|protected|internal)\s+\w+.*?\(` (smart-filter.py,
method-signature count, weight 2). -/
def p_sig : RE := .seq .wb (.seq
  (altList [strRE "public", strRE "private", strRE "protected", strRE "internal"])
  (.seq (plusRE (.cc .space)) (.seq (plusRE (.cc .word))
    (.seq (.starL (.cc .any)) (.cc (.lit '('))))))

/-- `(SELECT|INSERT|UPDATE|DELETE)` (smart-filter.py, SQL-keyword count,
weight 3, `re.IGNORECASE`). -/
def p_sqlkw : RE := altList [strRE "SELECT", strRE "INSERT", strRE "UPDATE",
  strRE "DELETE"]

/-- `\b(async|await)\b` (smart-filter.py, concurrency count, weight 2). -/
def p_async : RE := .seq .wb (.seq (altList [strRE "async", strRE "await"]) .wb)

/-- `\.(Where|Select|FirstOrDefault|Any|All)\(` (smart-filter.py, Linq-chain
count, weight 1). -/
def p_linq : RE := .seq (.cc (.lit '.')) (.seq
  (altList [strRE "Where", strRE "Select", strRE "FirstOrDefault",
    strRE "Any", strRE "All"]) (.cc (.lit '(')))

/-- `\b(try|catch|throw)\b` (smart-filter.py, exception-handling count,
weight 2). -/
def p_try : RE := .seq .wb (.seq (altList [strRE "try", strRE "catch",
  strRE "throw"]) .wb)

/-! ### copilot-review.py -/

/-- Which analyzer produced a verdict.  The Python dict has no such field;
this tag records the code path (`review_file`'s remote-parse branch versus
`_static_review`) that built the verdict. -/
inductive Source where
  | REMOTE
  | STATIC_FALLBACK
deriving DecidableEq, Inhabited

/-- The dict `review_file` / `_static_review` return:
`{'file', 'review', 'critical', 'diff_size'}`, plus the provenance tag. -/
structure Verdict where
  file : String
  review : String
  critical : Bool
  diff_size : Nat
  source : Source
deriving DecidableEq, Inhabited

/-- Outcome of the single `requests.post` call a review issues.  `resp`
is an HTTP response carrying `status_code` and, when the body parsed and
held `choices[0].message.content`, that string (`none` models a 200 body
whose JSON is invalid or lacks the field, the `KeyError`/`ValueError`
branch).  `exn` models a transport exception (timeout, connection error). -/
inductive RemoteOutcome where
  | resp (status : Nat) (content : Option String)
  | exn
deriving DecidableEq, Inhabited

/-- `CopilotReviewer.is_critical_change`: first the loop over
`critical_patterns` with `re.search(..., re.IGNORECASE)` returning early,
then the added/removed line count test. -/
def is_critical_change (diff : String) : Bool :=
  match critical_patterns.find? (fun p => research true p diff.data) with
  | some _ => true
  | none =>
      let added := ((splitLines diff.data).filter (lineStarts '+')).length
      let removed := ((splitLines diff.data).filter (lineStarts '-')).length
      decide (added + removed > 20)

/-- The lines `should_skip_review` calls meaningful: those starting with
`+` or `-`. -/
def meaningful_lines (diff : String) : List (List Char) :=
  (splitLines diff.data).filter (fun l => lineStarts '+' l || lineStarts '-' l)

/-- `CopilotReviewer.should_skip_review`: under 3 meaningful lines, and
some one skip-pattern `re.match`es every meaningful line once its first
character is dropped (`line[1:]`) and the rest stripped (the loop returns
on the first pattern for which `all(...)` holds). -/
def should_skip_review (diff : String) : Bool :=
  let ml := meaningful_lines diff
  if ml.length < 3 then
    skip_patterns.any (fun p => ml.all (fun l => rmatch false p (stripChars (l.drop 1))))
  else
    false

/-- The ordered `(pattern, message, penalty)` table of
`CopilotReviewer._static_review` (`security_patterns ++ performance_patterns`). -/
def static_rules : List (RE × String × Nat) :=
  [(p_md5, "Weak hashing algorithm detected", 30),
   (p_sql, "Potential SQL injection vulnerability", 40),
   (p_eval, "Dangerous code execution function", 50),
   (p_open, "File opened without context manager", 10),
   (p_loop, "Inefficient string concatenation in loop", 15),
   (p_sleep, "Blocking sleep operation", 10)]

/-- One iteration of the rule loop of `_static_review`: a rule whose
pattern `re.search`es the diff appends `"- " + message` to the issues and
subtracts its penalty from the score. -/
def staticStep (s : List Char) (acc : List String × Int) (rule : RE × String × Nat) :
    List String × Int :=
  if research true rule.1 s then
    (acc.1 ++ ["- " ++ rule.2.1], acc.2 - (rule.2.2 : Int))
  else acc

/-- The rule loop of `_static_review`, starting from `([], 100)`. -/
def staticScan (diff : String) : List String × Int :=
  static_rules.foldl (staticStep diff.data) ([], 100)

def staticIssues (diff : String) : List String := (staticScan diff).1

def staticScore (diff : String) : Int := (staticScan diff).2

/-- `critical = score < 70 or any('injection' in issue or 'dangerous' in
issue.lower() for issue in issues)`. -/
def staticCritical (diff : String) : Bool :=
  staticScore diff < 70 ||
    (staticIssues diff).any
      (fun issue => strContains "injection" issue || strContains "dangerous" (strToLower issue))

/-- The DECISION word `_static_review` writes into the review text:
`"REJECT" if critical else "ACCEPT"` when issues were found, the
no-issue branch hard-codes ACCEPT. -/
def staticDecision (diff : String) : String :=
  if staticIssues diff = [] then "ACCEPT"
  else if staticCritical diff then "REJECT" else "ACCEPT"

/-- The review markdown `_static_review` builds (both template branches). -/
def staticReviewText (diff : String) : String :=
  if staticIssues diff = [] then
    "## Static Code Review Results\n\n**DECISION**: ACCEPT (Score: "
      ++ toString (staticScore diff)
      ++ "/100)\n\n**STATUS**: No critical issues detected in static analysis.\n\n"
      ++ "**RECOMMENDATIONS**:\n- Continue following best practices\n"
      ++ "- Consider adding comprehensive tests\n- Ensure proper error handling\n\n"
      ++ "*Note: This is a static analysis fallback. For comprehensive AI-powered review, ensure copilot-proxy is properly configured.*"
  else
    "## Static Code Review Results\n\n**DECISION**: " ++ staticDecision diff
      ++ " (Score: " ++ toString (staticScore diff) ++ "/100)\n\n**ISSUES FOUND**:\n"
      ++ String.intercalate "\n" (staticIssues diff)
      ++ "\n\n**RECOMMENDATIONS**:\n- Use secure hashing algorithms (SHA-256 or better)\n"
      ++ "- Use parameterized queries to prevent SQL injection\n"
      ++ "- Use context managers for file operations\n"
      ++ "- Optimize string operations using join() or f-strings\n"
      ++ "- Consider async operations for I/O bound tasks\n\n"
      ++ "*Note: This is a static analysis fallback. For comprehensive AI-powered review, ensure copilot-proxy is properly configured.*"

/-- `CopilotReviewer._static_review`: the verdict dict of the fallback
path. -/
def static_review (filepath diff : String) : Verdict :=
  { file := filepath
    review := staticReviewText diff
    critical := staticCritical diff
    diff_size := diff.length
    source := .STATIC_FALLBACK }

/-- `CopilotReviewer.review_file`, taking the already-acquired diff text
(diff acquisition is subprocess I/O) and the outcome of its one
`requests.post` call.  An empty diff or a trivial diff yields no verdict;
a 200 response with extractable content yields the remote verdict; every
other outcome falls back to `_static_review`.  The function consumes
exactly one `RemoteOutcome`: there is no retry. -/
def review_file (filepath diff : String) (outcome : RemoteOutcome) : Option Verdict :=
  if diff = "" || should_skip_review diff then none
  else
    match outcome with
    | .resp status content =>
        if status = 200 then
          match content with
          | some text =>
              some { file := filepath
                     review := text
                     critical := is_critical_change diff
                     diff_size := diff.length
                     source := .REMOTE }
          | none => some (static_review filepath diff)
        else some (static_review filepath diff)
    | .exn => some (static_review filepath diff)

/-- The REJECT test of both `main` loops:
`'REJECT' in review or 'ВІДХИЛИТИ' in review`. -/
def rejectMarker (review : String) : Bool :=
  strContains "REJECT" review || strContains "ВІДХИЛИТИ" review

/-- The `main` loop of copilot-review.py over `(filepath, diff, outcome)`
units: collects `reviews` (every verdict produced) and `failed_reviews`
(those whose review text carries the reject marker), in input order. -/
def copilotRun : List (String × String × RemoteOutcome) → List Verdict × List Verdict
  | [] => ([], [])
  | u :: rest =>
      match review_file u.1 u.2.1 u.2.2 with
      | some v =>
          let r := copilotRun rest
          (v :: r.1, if rejectMarker v.review then v :: r.2 else r.2)
      | none => copilotRun rest

/-- copilot-review.py exit code: 1 when `failed_reviews` is non-empty,
else 0. -/
def copilotExit (units : List (String × String × RemoteOutcome)) : Nat :=
  if (copilotRun units).2 ≠ [] then 1 else 0

/-! ### batch-review.py -/

/-- The dict `BatchReviewer.batch_review` returns on success. -/
structure BatchVerdict where
  files : List String
  review : String
  priority : String
  total_files : Nat
deriving DecidableEq, Inhabited

/-- `BatchReviewer.batch_review`, taking the member files, the combined
diff its git loop assembled, and the outcome of its one `requests.post`.
Only a 200 response whose body held `choices[0].message.content` yields a
verdict; a non-200 status falls through the `if`, and any exception
(transport or body parsing) is caught — both return `None`.  There is no
static fallback on this path and no retry. -/
def batch_review (files : List String) (combined_diff : String)
    (priority : String) (outcome : RemoteOutcome) : Option BatchVerdict :=
  if files = [] then none
  else if stripChars combined_diff.data = [] then none
  else
    match outcome with
    | .resp status content =>
        if status = 200 then
          match content with
          | some text =>
              some { files := files
                     review := text
                     priority := priority
                     total_files := files.length }
          | none => none
        else none
    | .exn => none

/-- The `i in range(0, len(files), batch_size)` slicing loop:
`files[i:i+batch_size]` chunks, fuel-indexed (`files.length` steps
always suffice once `bs ≥ 1`). -/
def chunksGo (bs : Nat) : Nat → List α → List (List α)
  | 0, _ => []
  | _ + 1, [] => []
  | fuel + 1, l => l.take bs :: chunksGo bs fuel (l.drop bs)

/-- Consecutive groups of `bs` files in original order. -/
def chunks (bs : Nat) (l : List α) : List (List α) :=
  chunksGo bs l.length l

/-- The batch-mode gate of batch-review.py `main`: below the threshold
nothing is reviewed (the script prints SKIP and exits 0), otherwise the
eligible files are partitioned into consecutive `batch_size` groups. -/
def batchPlan (files : List String) (threshold batch_size : Nat) :
    Option (List (List String)) :=
  if files.length < threshold then none
  else some (chunks batch_size files)

/-- The review loop of batch-review.py `main` over
`(batch_files, combined_diff, outcome)` units: a reviewed batch whose
review text carries the reject marker contributes all its member files to
`failed_reviews`; a failed review (`None`) contributes nothing, and the
loop continues either way. -/
def batchRun (priority : String) :
    List (List String × String × RemoteOutcome) → List String
  | [] => []
  | b :: rest =>
      match batch_review b.1 b.2.1 priority b.2.2 with
      | some r =>
          (if rejectMarker r.review then b.1 else []) ++ batchRun priority rest
      | none => batchRun priority rest

/-- batch-review.py exit code for the reviewed batches: 1 when
`failed_reviews` is non-empty, else 0. -/
def batchExit (priority : String)
    (batches : List (List String × String × RemoteOutcome)) : Nat :=
  if batchRun priority batches ≠ [] then 1 else 0

/-! ### smart-filter.py -/

/-- `get_file_complexity`, over the result of trying to read the file:
`none` is the `except` branch (unreadable content scores 0), `some c`
the weighted sum of the five `re.findall` counts. -/
def get_file_complexity (content : Option String) : Nat :=
  match content with
  | none => 0
  | some c =>
      countMatches false p_sig c.data * 2
      + countMatches true p_sqlkw c.data * 3
      + countMatches false p_async c.data * 2
      + countMatches false p_linq c.data * 1
      + countMatches false p_try c.data * 2

/-- The classification loop of smart-filter.py `main` over
`(filepath, read result)` pairs, with the hard-coded threshold 10:
returns `(reviewed_files, skipped_files)`, both carrying the score,
in input order. -/
def smartFilterRun :
    List (String × Option String) → List (String × Nat) × List (String × Nat)
  | [] => ([], [])
  | fc :: rest =>
      let complexity := get_file_complexity fc.2
      let r := smartFilterRun rest
      if complexity ≥ 10 then ((fc.1, complexity) :: r.1, r.2)
      else (r.1, (fc.1, complexity) :: r.2)

/-! ### Derived notions used by the statements -/

/-- A failed remote call, as `review_file` discriminates it: any status
other than 200 (which includes every non-2xx status), a 200 body without
`choices[0].message.content`, or a transport exception. -/
def remoteFailed : RemoteOutcome → Bool
  | .resp status content => status ≠ 200 || content.isNone
  | .exn => true

/-- Sizes of the consecutive `batch_size` groups of `n` files (proof
helper mirroring `chunksGo`). -/
def chunkSizesGo (bs : Nat) : Nat → Nat → List Nat
  | 0, _ => []
  | _ + 1, 0 => []
  | fuel + 1, n => min bs n :: chunkSizesGo bs fuel (n - bs)

/-- Sizes of the groups `chunks bs` produces from a list of length `n`. -/
def chunkSizes (bs n : Nat) : List Nat := chunkSizesGo bs n n

/-! ## Helper lemmas -/

lemma staticStep_snd_bounds (s : List Char) (acc : List String × Int)
    (rule : RE × String × Nat) :
    (staticStep s acc rule).2 ≤ acc.2 ∧
      acc.2 - (rule.2.2 : Int) ≤ (staticStep s acc rule).2 := by
  unfold staticStep
  split <;> simp

lemma foldl_staticStep_bounds (s : List Char) :
    ∀ (rules : List (RE × String × Nat)) (acc : List String × Int),
      (rules.foldl (staticStep s) acc).2 ≤ acc.2 ∧
        acc.2 - (rules.map (fun r => (r.2.2 : Int))).sum ≤
          (rules.foldl (staticStep s) acc).2
  | [], acc => by simp
  | rule :: rules, acc => by
      have hstep := staticStep_snd_bounds s acc rule
      have ih := foldl_staticStep_bounds s rules (staticStep s acc rule)
      simp only [List.foldl_cons, List.map_cons, List.sum_cons]
      constructor
      · exact le_trans ih.1 hstep.1
      · have := ih.2
        omega

lemma copilotRun_snd_eq_filter :
    ∀ units, (copilotRun units).2 =
      (copilotRun units).1.filter (fun v => rejectMarker v.review)
  | [] => rfl
  | u :: rest => by
      have ih := copilotRun_snd_eq_filter rest
      simp only [copilotRun]
      cases h : review_file u.1 u.2.1 u.2.2 with
      | none => simp [ih]
      | some v =>
          cases hm : rejectMarker v.review <;>
            simp [hm, ih, List.filter_cons]

lemma batchRun_mem (priority : String) :
    ∀ (batches : List (List String × String × RemoteOutcome)) (f : String),
      f ∈ batchRun priority batches ↔
        ∃ b ∈ batches, ∃ r, batch_review b.1 b.2.1 priority b.2.2 = some r ∧
          rejectMarker r.review = true ∧ f ∈ b.1
  | [], f => by simp [batchRun]
  | b :: rest, f => by
      have ih := batchRun_mem priority rest f
      simp only [batchRun]
      cases h : batch_review b.1 b.2.1 priority b.2.2 with
      | none => simp [h, ih, List.exists_mem_cons_iff]
      | some r =>
          cases hm : rejectMarker r.review <;>
            simp [h, hm, ih, List.exists_mem_cons_iff]

lemma smartFilterRun_fst :
    ∀ files, (smartFilterRun files).1 =
      (files.map (fun fc => (fc.1, get_file_complexity fc.2))).filter
        (fun x => decide (10 ≤ x.2))
  | [] => rfl
  | fc :: rest => by
      have ih := smartFilterRun_fst rest
      simp only [smartFilterRun, List.map_cons, List.filter_cons]
      rcases Nat.lt_or_ge (get_file_complexity fc.2) 10 with h | h
      · rw [if_neg (by omega)]
        simp [Nat.not_le.mpr h, ih]
      · rw [if_pos h]
        simp [h, ih]

lemma smartFilterRun_snd :
    ∀ files, (smartFilterRun files).2 =
      (files.map (fun fc => (fc.1, get_file_complexity fc.2))).filter
        (fun x => decide (x.2 < 10))
  | [] => rfl
  | fc :: rest => by
      have ih := smartFilterRun_snd rest
      simp only [smartFilterRun, List.map_cons, List.filter_cons]
      rcases Nat.lt_or_ge (get_file_complexity fc.2) 10 with h | h
      · rw [if_neg (by omega)]
        simp [h, ih]
      · rw [if_pos h]
        simp [Nat.not_lt.mpr h, ih]

lemma chunksGo_flatten {α : Type} (bs : Nat) (hbs : 0 < bs) :
    ∀ (fuel : Nat) (l : List α), l.length ≤ fuel →
      (chunksGo bs fuel l).flatten = l
  | 0, l, h => by
      have : l = [] := List.eq_nil_of_length_eq_zero (Nat.le_zero.mp h)
      simp [this, chunksGo]
  | fuel + 1, [], _ => by simp [chunksGo]
  | fuel + 1, c :: cs, h => by
      have ih := chunksGo_flatten bs hbs fuel ((c :: cs).drop bs)
        (by simp only [List.length_drop, List.length_cons] at *; omega)
      simp [chunksGo, ih]

lemma chunksGo_map_length {α : Type} (bs : Nat) (hbs : 0 < bs) :
    ∀ (fuel : Nat) (l : List α), l.length ≤ fuel →
      (chunksGo bs fuel l).map List.length = chunkSizesGo bs fuel l.length
  | 0, l, h => by
      have : l = [] := List.eq_nil_of_length_eq_zero (Nat.le_zero.mp h)
      simp [this, chunksGo, chunkSizesGo]
  | fuel + 1, [], _ => by simp [chunksGo, chunkSizesGo]
  | fuel + 1, c :: cs, h => by
      have ih := chunksGo_map_length bs hbs fuel ((c :: cs).drop bs)
        (by simp only [List.length_drop, List.length_cons] at *; omega)
      simp only [chunksGo, List.map_cons, ih, List.length_take,
        List.length_drop, List.length_cons, chunkSizesGo]

lemma chunks_flatten {α : Type} (bs : Nat) (hbs : 0 < bs) (l : List α) :
    (chunks bs l).flatten = l :=
  chunksGo_flatten bs hbs l.length l (le_refl _)

lemma chunks_map_length {α : Type} (bs : Nat) (hbs : 0 < bs) (l : List α) :
    (chunks bs l).map List.length = chunkSizes bs l.length :=
  chunksGo_map_length bs hbs l.length l (le_refl _)

/-! ## Claims -/

/-- C5: for a diff matching the weak-hashing rule (`hashlib.md5`/`sha1`)
and no other static fallback rule, `_static_review` records exactly the
weak-hashing issue with penalty 30, score exactly 70, `critical = false`
(70 is not below the threshold 70 and the message carries no
injection/dangerous marker), and decision ACCEPT. -/
theorem C5_weak_hash_boundary (diff : String)
    (h1 : research true p_md5 diff.data = true)
    (h2 : research true p_sql diff.data = false)
    (h3 : research true p_eval diff.data = false)
    (h4 : research true p_open diff.data = false)
    (h5 : research true p_loop diff.data = false)
    (h6 : research true p_sleep diff.data = false) :
    staticIssues diff = ["- Weak hashing algorithm detected"] ∧
      staticScore diff = 70 ∧ staticCritical diff = false ∧
      staticDecision diff = "ACCEPT" := by
  have hscan : staticScan diff = (["- Weak hashing algorithm detected"], 70) := by
    simp [staticScan, static_rules, staticStep, h1, h2, h3, h4, h5, h6]
  refine ⟨?_, ?_, ?_, ?_⟩ <;>
    simp only [staticIssues, staticScore, staticCritical, staticDecision, hscan] <;>
    decide

/-- C5 witness: the concrete diff `+hashlib.md5(password)` fires the
weak-hashing rule alone: score 70, not critical, decision ACCEPT. -/
theorem C5_witness :
    staticIssues "+hashlib.md5(password)" = ["- Weak hashing algorithm detected"] ∧
      staticScore "+hashlib.md5(password)" = 70 ∧
      staticCritical "+hashlib.md5(password)" = false ∧
      staticDecision "+hashlib.md5(password)" = "ACCEPT" :=
  C5_weak_hash_boundary "+hashlib.md5(password)" (by decide) (by decide)
    (by decide) (by decide) (by decide) (by decide)

/-- C4 counterexample: the claim asserts that a diff containing
`hashlib.md5(password...)` plus an f-string-built SELECT statement fires
both the weak-hashing rule and the string-built-SQL rule, giving score 0
and decision REJECT.  On this concrete such diff the SQL rule
(`SELECT.*\+.*|INSERT.*\+.*`) does not fire — the f-string has no `+`
after `SELECT` on its line — so the score is 70, not critical, ACCEPT. -/
theorem C4_counterexample :
    strContains "hashlib.md5(password"
        "+hashlib.md5(password)\n+q = f\"SELECT a FROM t\"" = true ∧
      strContains "f\"SELECT"
        "+hashlib.md5(password)\n+q = f\"SELECT a FROM t\"" = true ∧
      research true p_sql
        "+hashlib.md5(password)\n+q = f\"SELECT a FROM t\"".data = false ∧
      staticScore "+hashlib.md5(password)\n+q = f\"SELECT a FROM t\"" = 70 ∧
      staticCritical "+hashlib.md5(password)\n+q = f\"SELECT a FROM t\"" = false ∧
      staticDecision "+hashlib.md5(password)\n+q = f\"SELECT a FROM t\"" = "ACCEPT" := by
  decide

/-- C4 amended: the string-built-SQL rule fires only when `SELECT` (or
`INSERT`) is followed by a literal `+` on the same line, not for an
f-string-built statement; and when a diff fires exactly the weak-hashing
(penalty 30) and string-built-SQL (penalty 40) rules the score is
100 − 30 − 40 = 30 (not 0), `critical = true` (30 < 70, and the SQL
message contains the injection marker), and the decision is REJECT. -/
theorem C4_amended (diff : String)
    (h1 : research true p_md5 diff.data = true)
    (h2 : research true p_sql diff.data = true)
    (h3 : research true p_eval diff.data = false)
    (h4 : research true p_open diff.data = false)
    (h5 : research true p_loop diff.data = false)
    (h6 : research true p_sleep diff.data = false) :
    staticIssues diff = ["- Weak hashing algorithm detected",
        "- Potential SQL injection vulnerability"] ∧
      staticScore diff = 30 ∧ staticCritical diff = true ∧
      staticDecision diff = "REJECT" := by
  have hscan : staticScan diff = (["- Weak hashing algorithm detected",
      "- Potential SQL injection vulnerability"], 30) := by
    simp [staticScan, static_rules, staticStep, h1, h2, h3, h4, h5, h6]
  refine ⟨?_, ?_, ?_, ?_⟩ <;>
    simp only [staticIssues, staticScore, staticCritical, staticDecision, hscan] <;>
    decide

/-- C4 witness: a diff whose SELECT is built by `+`-concatenation fires
both rules: score 30, critical, REJECT. -/
theorem C4_witness :
    staticIssues "+hashlib.md5(password)\n+q = \"SELECT a\" + x" =
        ["- Weak hashing algorithm detected",
         "- Potential SQL injection vulnerability"] ∧
      staticScore "+hashlib.md5(password)\n+q = \"SELECT a\" + x" = 30 ∧
      staticCritical "+hashlib.md5(password)\n+q = \"SELECT a\" + x" = true ∧
      staticDecision "+hashlib.md5(password)\n+q = \"SELECT a\" + x" = "REJECT" :=
  C4_amended "+hashlib.md5(password)\n+q = \"SELECT a\" + x" (by decide) (by decide)
    (by decide) (by decide) (by decide) (by decide)

/-- C6 counterexample: the claim asserts every verdict's score lies in
[0, 100], but the static fallback does not clamp: a diff firing the
weak-hashing (30), string-built-SQL (40) and dynamic-execution (50)
rules scores 100 − 120 = −20 < 0. -/
theorem C6_counterexample :
    staticScore "+hashlib.md5(p)\n+q = \"SELECT a\" + x\n+r = eval(c)" = -20 ∧
      staticScore "+hashlib.md5(p)\n+q = \"SELECT a\" + x\n+r = eval(c)" < 0 := by
  decide

/-- C6 amended: the static fallback score starts at 100 and only ever
subtracts the penalties of matching rules, so it is at most 100 and at
least 100 − 155 = −55 (155 is the sum of all six penalties); it is not
clamped to [0, 100] and can be negative. -/
theorem C6_amended (diff : String) :
    staticScore diff ≤ 100 ∧ -55 ≤ staticScore diff := by
  have h := foldl_staticStep_bounds diff.data static_rules ([], 100)
  have hsum : (static_rules.map (fun r => (r.2.2 : Int))).sum = 155 := by
    simp [static_rules]
  rw [hsum] at h
  simp only [staticScore, staticScan] at *
  omega

/-- C3 counterexample: the claim reads "every meaningful line matches at
least one skip-pattern", but the code requires one single pattern to
match all the lines.  This diff has two meaningful lines, each matching
a (different) skip-pattern, yet `should_skip_review` returns false. -/
theorem C3_counterexample :
    ((meaningful_lines "+using X\n+// c").length < 3 ∧
      ∀ l ∈ meaningful_lines "+using X\n+// c",
        ∃ p ∈ skip_patterns, rmatch false p (stripChars (l.drop 1)) = true) ∧
      should_skip_review "+using X\n+// c" = false := by
  decide

/-- C3 amended: `should_skip_review` returns true exactly when the diff
has fewer than 3 meaningful lines and some single configured skip-pattern
matches every meaningful line once its leading marker is dropped and the
rest stripped; and when it returns true, `review_file` produces no
verdict. -/
theorem C3_amended (fp diff : String) (outcome : RemoteOutcome) :
    (should_skip_review diff = true ↔
      ((meaningful_lines diff).length < 3 ∧
        ∃ p ∈ skip_patterns, ∀ l ∈ meaningful_lines diff,
          rmatch false p (stripChars (l.drop 1)) = true)) ∧
    (should_skip_review diff = true → review_file fp diff outcome = none) := by
  constructor
  · simp only [should_skip_review]
    rcases Nat.lt_or_ge (meaningful_lines diff).length 3 with h | h
    · simp [h, List.any_eq_true, List.all_eq_true]
    · simp [Nat.not_lt.mpr h, h]
  · intro h
    simp [review_file, h]

/-- C3 witness: the one-line diff `+using X` is skipped and yields no
verdict even with a healthy remote response available. -/
theorem C3_witness :
    review_file "f.py" "+using X" (.resp 200 (some "ok")) = none :=
  (C3_amended "f.py" "+using X" (.resp 200 (some "ok"))).2 (by decide)

/-- C1 counterexample: the claim asserts every failing review unit —
batches included — yields a STATIC_FALLBACK verdict.  For a batch unit
with a non-empty file list and a non-blank combined diff, a failing
remote call (here HTTP 500 with an unusable body) makes `batch_review`
return `None`: no verdict of any kind is produced for that unit. -/
theorem C1_counterexample :
    remoteFailed (.resp 500 none) = true ∧
      (["a.py", "b.py"] : List String) ≠ [] ∧
      stripChars "+x = 1".data ≠ [] ∧
      batch_review ["a.py", "b.py"] "+x = 1" "normal" (.resp 500 none) = none := by
  decide

/-- C1 amended: for single-file units, any failing remote call (non-200
status — which covers every non-2xx — missing content, or a transport
exception) makes `review_file` return the `_static_review` verdict,
whose source is STATIC_FALLBACK, with no retry (the function consumes
exactly one remote outcome); for batch units, a failing remote call
yields no verdict at all (`batch_review` returns `None`); in both loops,
the outcome of one unit never aborts the processing of the remaining
units. -/
theorem C1_amended :
    (∀ (fp diff : String) (outcome : RemoteOutcome),
        diff ≠ "" → should_skip_review diff = false → remoteFailed outcome = true →
        review_file fp diff outcome = some (static_review fp diff) ∧
          (static_review fp diff).source = Source.STATIC_FALLBACK) ∧
    (∀ (files : List String) (cd priority : String) (outcome : RemoteOutcome),
        remoteFailed outcome = true →
        batch_review files cd priority outcome = none) ∧
    (∀ (u : String × String × RemoteOutcome) rest,
        (copilotRun rest).1 <:+ (copilotRun (u :: rest)).1) ∧
    (∀ (priority : String) b rest,
        batchRun priority rest <:+ batchRun priority (b :: rest)) := by
  refine ⟨?_, ?_, ?_, ?_⟩
  · intro fp diff outcome h1 h2 h3
    refine ⟨?_, rfl⟩
    simp only [review_file, h1, h2]
    simp only [decide_False, Bool.false_or, Bool.or_false, Bool.false_eq_true,
      if_false]
    cases outcome with
    | exn => rfl
    | resp status content =>
        simp only [remoteFailed] at h3
        by_cases hs : status = 200
        · subst hs
          simp at h3
          simp [h3]
        · simp [hs]
  · intro files cd priority outcome h
    simp only [batch_review]
    split
    · rfl
    · split
      · rfl
      · cases outcome with
        | exn => rfl
        | resp status content =>
            simp only [remoteFailed] at h
            by_cases hs : status = 200
            · subst hs
              simp at h
              simp [h]
            · simp [hs]
  · intro u rest
    cases h : review_file u.1 u.2.1 u.2.2 with
    | none =>
        have he : copilotRun (u :: rest) = copilotRun rest := by
          simp [copilotRun, h]
        rw [he]
    | some v =>
        have he : (copilotRun (u :: rest)).1 = v :: (copilotRun rest).1 := by
          simp [copilotRun, h]
        rw [he]
        exact List.suffix_cons _ _
  · intro priority b rest
    cases h : batch_review b.1 b.2.1 priority b.2.2 with
    | none =>
        have he : batchRun priority (b :: rest) = batchRun priority rest := by
          simp [batchRun, h]
        rw [he]
    | some r =>
        have he : batchRun priority (b :: rest) =
            (if rejectMarker r.review then b.1 else []) ++ batchRun priority rest := by
          simp [batchRun, h]
        rw [he]
        exact List.suffix_append _ _

/-- C1 witness: a single-file unit with a transport exception yields the
static fallback verdict, and a batch unit with the same failure yields
none. -/
theorem C1_witness :
    review_file "f.py" "+hashlib.md5(password)" .exn =
        some (static_review "f.py" "+hashlib.md5(password)") ∧
      (static_review "f.py" "+hashlib.md5(password)").source =
        Source.STATIC_FALLBACK ∧
      batch_review ["a.py"] "+x = 1" "normal" .exn = none :=
  ⟨(C1_amended.1 "f.py" "+hashlib.md5(password)" .exn (by decide) (by decide)
      (by decide)).1,
   (C1_amended.1 "f.py" "+hashlib.md5(password)" .exn (by decide) (by decide)
      (by decide)).2,
   C1_amended.2.1 ["a.py"] "+x = 1" "normal" .exn (by decide)⟩

/-- C2: in both aggregation loops the rejected set is exactly the union,
over every produced verdict whose review text carries the reject marker,
of the paths it covers — a rejected batch verdict contributes every one
of its member files — and the exit code is 1 iff that set is non-empty,
else 0. -/
theorem C2_aggregate :
    (∀ (units : List (String × String × RemoteOutcome)) (f : String),
        f ∈ ((copilotRun units).2).map Verdict.file ↔
          ∃ v, v ∈ (copilotRun units).1 ∧ rejectMarker v.review = true ∧
            v.file = f) ∧
    (∀ units : List (String × String × RemoteOutcome),
        (copilotExit units = 1 ↔ (copilotRun units).2 ≠ []) ∧
        (copilotExit units = 0 ↔ (copilotRun units).2 = [])) ∧
    (∀ (priority : String) (batches : List (List String × String × RemoteOutcome))
        (f : String),
        f ∈ batchRun priority batches ↔
          ∃ b ∈ batches, ∃ r, batch_review b.1 b.2.1 priority b.2.2 = some r ∧
            rejectMarker r.review = true ∧ f ∈ b.1) ∧
    (∀ (priority : String) (batches : List (List String × String × RemoteOutcome)),
        (batchExit priority batches = 1 ↔ batchRun priority batches ≠ []) ∧
        (batchExit priority batches = 0 ↔ batchRun priority batches = [])) := by
  refine ⟨?_, ?_, batchRun_mem, ?_⟩
  · intro units f
    rw [copilotRun_snd_eq_filter]
    simp only [List.mem_map, List.mem_filter]
    constructor
    · rintro ⟨v, ⟨hv, hm⟩, hf⟩
      exact ⟨v, hv, hm, hf⟩
    · rintro ⟨v, hv, hm, hf⟩
      exact ⟨v, ⟨hv, hm⟩, hf⟩
  · intro units
    rcases eq_or_ne (copilotRun units).2 [] with h | h <;>
      simp [copilotExit, h]
  · intro priority batches
    rcases eq_or_ne (batchRun priority batches) [] with h | h <;>
      simp [batchExit, h]

/-- C2 witness: a rejected two-file batch puts both member files into the
rejected set. -/
theorem C2_witness :
    "a.py" ∈ batchRun "normal"
        [(["a.py", "b.py"], "+x = 1", .resp 200 (some "REJECT: bad"))] ∧
      "b.py" ∈ batchRun "normal"
        [(["a.py", "b.py"], "+x = 1", .resp 200 (some "REJECT: bad"))] :=
  ⟨(C2_aggregate.2.2.1 "normal"
      [(["a.py", "b.py"], "+x = 1", .resp 200 (some "REJECT: bad"))] "a.py").mpr
      ⟨(["a.py", "b.py"], "+x = 1", .resp 200 (some "REJECT: bad")),
        by decide, by decide⟩,
   (C2_aggregate.2.2.1 "normal"
      [(["a.py", "b.py"], "+x = 1", .resp 200 (some "REJECT: bad"))] "b.py").mpr
      ⟨(["a.py", "b.py"], "+x = 1", .resp 200 (some "REJECT: bad")),
        by decide, by decide⟩⟩

/-- C7: a verdict is rejected iff its review text contains the literal
case-sensitive token REJECT or the localized token ВІДХИЛИТИ; the
rejected sublist of the copilot loop is exactly the produced verdicts
filtered by that marker, and the marker depends on nothing but the
review text. -/
theorem C7_decision_from_text :
    (∀ s, rejectMarker s =
        (strContains "REJECT" s || strContains "ВІДХИЛИТИ" s)) ∧
    (∀ units, (copilotRun units).2 =
        (copilotRun units).1.filter (fun v => rejectMarker v.review)) ∧
    (∀ v w : Verdict, v.review = w.review →
        rejectMarker v.review = rejectMarker w.review) :=
  ⟨fun _ => rfl, copilotRun_snd_eq_filter, fun _ _ h => by rw [h]⟩

/-- C7 witness: two verdicts differing in every field except the review
text get the same marker value. -/
theorem C7_witness :
    rejectMarker (Verdict.mk "a.py" "DECISION: REJECT" false 3 .REMOTE).review =
      rejectMarker
        (Verdict.mk "b.py" "DECISION: REJECT" true 7 .STATIC_FALLBACK).review :=
  C7_decision_from_text.2.2 (Verdict.mk "a.py" "DECISION: REJECT" false 3 .REMOTE)
    (Verdict.mk "b.py" "DECISION: REJECT" true 7 .STATIC_FALLBACK) rfl

/-- C8: `is_critical_change` returns true exactly when some configured
critical pattern matches the diff case-insensitively or the combined
count of added plus removed lines exceeds 20; in particular any diff
with more than 20 added+removed lines is critical regardless of
content. -/
theorem C8_is_critical (diff : String) :
    (is_critical_change diff = true ↔
      ((∃ p ∈ critical_patterns, research true p diff.data = true) ∨
        ((splitLines diff.data).filter (lineStarts '+')).length +
          ((splitLines diff.data).filter (lineStarts '-')).length > 20)) ∧
    (((splitLines diff.data).filter (lineStarts '+')).length +
        ((splitLines diff.data).filter (lineStarts '-')).length > 20 →
      is_critical_change diff = true) := by
  unfold is_critical_change
  cases hf : critical_patterns.find? (fun p => research true p diff.data) with
  | some p =>
      have hp : research true p diff.data = true := by
        have := List.find?_some hf
        simpa using this
      have hmem : p ∈ critical_patterns := List.mem_of_find?_eq_some hf
      exact ⟨iff_of_true rfl (Or.inl ⟨p, hmem, hp⟩), fun _ => rfl⟩
  | none =>
      have hnone : ∀ p ∈ critical_patterns, research true p diff.data = false := by
        intro p hp
        have := List.find?_eq_none.mp hf p hp
        simpa using this
      constructor
      · simp only [decide_eq_true_eq]
        constructor
        · intro h
          exact Or.inr h
        · rintro (⟨p, hp, hres⟩ | h)
          · rw [hnone p hp] at hres
            exact absurd hres (by simp)
          · exact h
      · intro h
        simpa using h

/-- C8 witness: a diff of 21 added lines with no sensitive content is
critical purely by size. -/
theorem C8_witness :
    is_critical_change
      "+x\n+x\n+x\n+x\n+x\n+x\n+x\n+x\n+x\n+x\n+x\n+x\n+x\n+x\n+x\n+x\n+x\n+x\n+x\n+x\n+x"
      = true :=
  (C8_is_critical
      "+x\n+x\n+x\n+x\n+x\n+x\n+x\n+x\n+x\n+x\n+x\n+x\n+x\n+x\n+x\n+x\n+x\n+x\n+x\n+x\n+x").2
    (by decide)

/-- C9: below the threshold no batch review runs (the script exits 0);
otherwise the eligible files are partitioned into consecutive groups of
`batch_size` preserving the original order (their concatenation is the
input list), and 12 files with threshold 10 and batch size 5 give exactly
the group sizes [5, 5, 2]. -/
theorem C9_batch_planning :
    (∀ (files : List String) (threshold bs : Nat),
        files.length < threshold → batchPlan files threshold bs = none) ∧
    (∀ (files : List String) (bs : Nat), 0 < bs →
        (chunks bs files).flatten = files ∧
        (chunks bs files).map List.length = chunkSizes bs files.length) ∧
    (∀ files : List String, files.length = 12 →
        batchPlan files 10 5 = some (chunks 5 files) ∧
        (chunks 5 files).map List.length = [5, 5, 2]) := by
  refine ⟨?_, ?_, ?_⟩
  · intro files threshold bs h
    simp [batchPlan, h]
  · intro files bs hbs
    exact ⟨chunks_flatten bs hbs files, chunks_map_length bs hbs files⟩
  · intro files h12
    constructor
    · simp [batchPlan, h12]
    · rw [chunks_map_length 5 (by omega) files, h12]
      decide

/-- C9 witness: one eligible file stays below the default threshold 10,
and a concrete list of 12 files is partitioned into groups of sizes
[5, 5, 2] whose concatenation is the original list. -/
theorem C9_witness :
    batchPlan ["a.py"] 10 5 = none ∧
      (chunks 5 ["f01", "f02", "f03", "f04", "f05", "f06", "f07", "f08",
        "f09", "f10", "f11", "f12"]).flatten =
        ["f01", "f02", "f03", "f04", "f05", "f06", "f07", "f08",
         "f09", "f10", "f11", "f12"] ∧
      (chunks 5 ["f01", "f02", "f03", "f04", "f05", "f06", "f07", "f08",
        "f09", "f10", "f11", "f12"]).map List.length = [5, 5, 2] :=
  ⟨C9_batch_planning.1 ["a.py"] 10 5 (by decide),
   (C9_batch_planning.2.1 ["f01", "f02", "f03", "f04", "f05", "f06", "f07",
      "f08", "f09", "f10", "f11", "f12"] 5 (by decide)).1,
   (C9_batch_planning.2.2 ["f01", "f02", "f03", "f04", "f05", "f06", "f07",
      "f08", "f09", "f10", "f11", "f12"] (by decide)).2⟩

/-- C10: the complexity score is the weighted sum of the five pattern
counts (signatures 2, SQL keywords 3, concurrency keywords 2, Linq
chains 1, exception keywords 2) — a deterministic pure function of the
content by construction — it is non-negative, an unreadable file scores
0, and every file scoring below the threshold 10 lands in the skipped
list while the rest land in the reviewed list: every input file is
classified, never rejected as an error. -/
theorem C10_complexity_filter :
    (∀ c : String, get_file_complexity (some c) =
        countMatches false p_sig c.data * 2 + countMatches true p_sqlkw c.data * 3 +
        countMatches false p_async c.data * 2 + countMatches false p_linq c.data * 1 +
        countMatches false p_try c.data * 2) ∧
    get_file_complexity none = 0 ∧
    (∀ x : Option String, 0 ≤ get_file_complexity x) ∧
    (∀ (files : List (String × Option String)) (fc : String × Option String),
        fc ∈ files →
        (get_file_complexity fc.2 < 10 →
          (fc.1, get_file_complexity fc.2) ∈ (smartFilterRun files).2) ∧
        (10 ≤ get_file_complexity fc.2 →
          (fc.1, get_file_complexity fc.2) ∈ (smartFilterRun files).1)) ∧
    (∀ files : List (String × Option String),
        (smartFilterRun files).1.length + (smartFilterRun files).2.length =
          files.length) := by
  refine ⟨fun _ => rfl, rfl, fun _ => Nat.zero_le _, ?_, ?_⟩
  · intro files fc hfc
    constructor
    · intro hlt
      rw [smartFilterRun_snd]
      refine List.mem_filter.mpr ⟨List.mem_map.mpr ⟨fc, hfc, rfl⟩, ?_⟩
      simpa using hlt
    · intro hge
      rw [smartFilterRun_fst]
      refine List.mem_filter.mpr ⟨List.mem_map.mpr ⟨fc, hfc, rfl⟩, ?_⟩
      simpa using hge
  · intro files
    induction files with
    | nil => rfl
    | cons fc rest ih =>
        simp only [smartFilterRun]
        split <;> simp [ih] <;> omega

/-- C10 witness: a file whose content cannot be read scores 0 and is
classified skipped, while a file with five exception-handling keywords
scores 10 and is classified reviewed. -/
theorem C10_witness :
    ("b", get_file_complexity (none : Option String)) ∈
        (smartFilterRun [("a", some "try catch throw try catch"),
          ("b", none)]).2 ∧
      ("a", get_file_complexity (some "try catch throw try catch")) ∈
        (smartFilterRun [("a", some "try catch throw try catch"),
          ("b", none)]).1 :=
  ⟨(C10_complexity_filter.2.2.2.1
      [("a", some "try catch throw try catch"), ("b", none)]
      ("b", none) (by decide)).1 (by decide),
   (C10_complexity_filter.2.2.2.1
      [("a", some "try catch throw try catch"), ("b", none)]
      ("a", some "try catch throw try catch") (by decide)).2 (by decide)⟩

end Review
